import Mathlib

/-
  Verification of the blobstore factory and multiplexer composition rules of
  the eden/mononoke blobstore factory
  (src/eden/mononoke/blobstore/factory/src/lib.rs).

  The factory is embedded shallowly: the declarative blob-config tree and the
  produced decorator/store tree are inductive types, external collaborators
  (backend constructors, SQL connections, the sync-queue table) are an
  explicit environment of fallible functions, and `make_blobstore`,
  `make_blobstore_multiplexed` and the per-component loop are Lean functions
  that mirror the Rust control flow, including error propagation through
  `Except`.
-/

namespace BlobstoreFactory

/-- Chaos (fault-injection) options. The chaosblob crate is external to the
factory source; its options record optional error sampling rates for reads
and writes, and `has_chaos` holds when either is set (the factory only ever
inspects `has_chaos` and rebuilds options with `ChaosOptions::new(None, None)`
to clear them). -/
structure ChaosOptions where
  error_sample_read : Option Nat
  error_sample_write : Option Nat
deriving DecidableEq, Repr

def ChaosOptions.new (read : Option Nat) (write : Option Nat) : ChaosOptions :=
  ⟨read, write⟩

def ChaosOptions.has_chaos (c : ChaosOptions) : Bool :=
  c.error_sample_read.isSome || c.error_sample_write.isSome

/-- Throttle options. The throttledblob crate is external to the factory
source; its options record optional read/write QPS limits and `has_throttle`
holds when either is set. -/
structure ThrottleOptions where
  read_qps : Option Nat
  write_qps : Option Nat
deriving DecidableEq, Repr

def ThrottleOptions.new (read : Option Nat) (write : Option Nat) : ThrottleOptions :=
  ⟨read, write⟩

def ThrottleOptions.has_throttle (t : ThrottleOptions) : Bool :=
  t.read_qps.isSome || t.write_qps.isSome

/-- BlobstoreOptions as in the factory source. -/
structure BlobstoreOptions where
  chaos_options : ChaosOptions
  throttle_options : ThrottleOptions
  manifold_api_key : Option String
deriving DecidableEq, Repr

/-- ScrubAction from metaconfig_types: report divergence only, or repair. -/
inductive ScrubAction where
  | ReportOnly
  | Repair
deriving DecidableEq, Repr

/-- Scrub handler handle. The factory always installs
`LoggingScrubHandler::new(false)`. -/
inductive ScrubHandler where
  | logging (quiet : Bool)
deriving DecidableEq, Repr

/-- MetadataDBConfig from metaconfig_types: a local sqlite path or a MySQL
tier with optional sharded filenodes parameters. -/
inductive MetadataDBConfig where
  | LocalDB (path : String)
  | Mysql (db_address : String) (sharded_filenodes : Option (String × Nat))
deriving DecidableEq, Repr

/-- The SqlFactory produced by `make_sql_factory`: Either a SqliteFactory or
an XdbFactory, as in the source. -/
inductive SqlFactory where
  | sqlite (path : String) (readonly : Bool)
  | xdb (db_address : String) (sharded_filenodes : Option (String × Nat)) (readonly : Bool)
deriving DecidableEq, Repr

mutual

/-- BlobConfig from metaconfig_types: the declarative blob-config tree
consumed by `make_blobstore`. Multiplexed and Scrub nodes carry an ordered
list of (BlobstoreId, BlobConfig) components. -/
inductive BlobConfig where
  | Disabled
  | Files (path : String)
  | Sqlite (path : String)
  | Manifold (bucket : String) (pfx : String)
  | Mysql (shard_map : String) (shard_num : Nat)
  | Multiplexed (multiplex_id : Nat) (scuba_table : Option String)
      (scuba_sample_rate : Nat) (blobstores : BlobMembers)
      (queue_db : MetadataDBConfig)
  | Scrub (multiplex_id : Nat) (scuba_table : Option String)
      (scuba_sample_rate : Nat) (blobstores : BlobMembers)
      (scrub_action : ScrubAction) (queue_db : MetadataDBConfig)
  | ManifoldWithTtl (bucket : String) (pfx : String) (ttl : Nat)

/-- The ordered component list of a Multiplexed or Scrub config node. -/
inductive BlobMembers where
  | nil
  | cons (blobstore_id : Nat) (config : BlobConfig) (rest : BlobMembers)

end

mutual

/-- The store tree the factory produces: core backends plus the decorator
wrappers (PrefixBlobstore, ReadOnlyBlobstore, ThrottledBlob, ChaosBlobstore)
and the two multiplex stores. The sync-queue handle is an abstract Nat. -/
inductive Store where
  | disabledBlob (reason : String)
  | fileblob (path : String)
  | sqlblobSqlite (path : String) (readonly : Bool)
  | manifoldBlob (bucket : String) (api_key : Option String)
  | manifoldBlobTtl (bucket : String) (ttl : Nat) (api_key : Option String)
  | sqlblobRemote (shard_map : String) (shard_num : Nat) (readonly : Bool)
  | prefixBlobstore (pfx : String) (inner : Store)
  | readOnlyBlobstore (inner : Store)
  | throttledBlob (opts : ThrottleOptions) (inner : Store)
  | chaosBlobstore (opts : ChaosOptions) (inner : Store)
  | multiplexedBlobstore (multiplex_id : Nat) (components : StoreMembers)
      (queue : Nat) (scuba_table : Option String) (scuba_sample_rate : Nat)
  | scrubBlobstore (multiplex_id : Nat) (components : StoreMembers)
      (queue : Nat) (scuba_table : Option String) (scuba_sample_rate : Nat)
      (handler : ScrubHandler) (action : ScrubAction)

/-- The ordered (BlobstoreId, Store) component list of a produced multiplex. -/
inductive StoreMembers where
  | nil
  | cons (blobstore_id : Nat) (store : Store) (rest : StoreMembers)

end

/-- Environment of external collaborators: the fallible constructors of the
concrete backends and of the SQL connections behind the sync queue. Each
returns `Except String` mirroring the `Result`/failing-future of the source. -/
structure Env where
  fileblob_create : String → Except String Unit
  sqlblob_with_sqlite_path : String → Bool → Except String Unit
  manifold_new : String → Option String → Except String Unit
  manifold_new_with_ttl : String → Nat → Option String → Except String Unit
  sqlblob_shardmap : String → Nat → Bool → Except String Unit
  myrouter_ready : String → Except String Unit
  open_blobstore_sync_queue : SqlFactory → Except String Nat

/-- Embedding of `make_sql_factory`: LocalDB yields a SqliteFactory; Mysql
waits for myrouter readiness and yields an XdbFactory. -/
def make_sql_factory (env : Env) (dbconfig : MetadataDBConfig)
    (readonly : Bool) : Except String SqlFactory :=
  match dbconfig with
  | .LocalDB path => .ok (.sqlite path readonly)
  | .Mysql db_address sharded_filenodes =>
      (env.myrouter_ready db_address).map fun _ =>
        .xdb db_address sharded_filenodes readonly

/-- The queue-opening pipeline of `make_blobstore_multiplexed`:
`make_sql_factory(...).and_then(|f| f.open::<SqlBlobstoreSyncQueue>())`. -/
def open_sync_queue (env : Env) (queue_db : MetadataDBConfig)
    (readonly : Bool) : Except String Nat :=
  (make_sql_factory env queue_db readonly).bind env.open_blobstore_sync_queue

/-- The `component_readonly` computation of `make_blobstore_multiplexed`:
read-only is dropped for components only when scrubbing with Repair. -/
def component_readonly_for (scrub_args : Option (ScrubHandler × ScrubAction))
    (readonly_storage : Bool) : Bool :=
  match scrub_args with
  | some (_, .Repair) => false
  | _ => readonly_storage

/-- The decorator-wrapping epilogue of `make_blobstore`: wrap in ReadOnly if
readonly storage is set, then in ThrottledBlob if throttling is set, then in
ChaosBlobstore if chaos is set and the node has no components. Each later
wrapper goes outside the earlier ones, as in the source. -/
def wrap_store (readonly_storage : Bool) (blobstore_options : BlobstoreOptions)
    (has_components : Bool) (store : Except String Store) : Except String Store :=
  let store := if readonly_storage then
      store.map Store.readOnlyBlobstore
    else store
  let store := if blobstore_options.throttle_options.has_throttle then
      store.map (fun inner => Store.throttledBlob blobstore_options.throttle_options inner)
    else store
  if !has_components && blobstore_options.chaos_options.has_chaos then
    store.map (fun inner => Store.chaosBlobstore blobstore_options.chaos_options inner)
  else store

/-- The tail of `make_blobstore_multiplexed`: resolve the queue handle, then
the components, then build a ScrubBlobstore (when scrub args are present) or
a MultiplexedBlobstore. A queue-opening error fails the whole construction
and takes precedence over component errors. -/
def multiplexed_assemble (multiplex_id : Nat) (queue : Except String Nat)
    (scuba_table : Option String) (scuba_sample_rate : Nat)
    (scrub_args : Option (ScrubHandler × ScrubAction))
    (components : Except String StoreMembers) : Except String Store :=
  match queue with
  | .error e => .error e
  | .ok q =>
      match components with
      | .error e => .error e
      | .ok comps =>
          match scrub_args with
          | some (handler, action) =>
              .ok (.scrubBlobstore multiplex_id comps q scuba_table
                scuba_sample_rate handler action)
          | none =>
              .ok (.multiplexedBlobstore multiplex_id comps q scuba_table
                scuba_sample_rate)

/-- The per-component chaos bookkeeping of `make_blobstore_multiplexed`: when
chaos is requested, the first component keeps it and flips the
`applied_chaos` flag; every later component gets chaos cleared. -/
def chaos_step (blobstore_options : BlobstoreOptions) (applied_chaos : Bool) :
    BlobstoreOptions × Bool :=
  if blobstore_options.chaos_options.has_chaos then
    if applied_chaos then
      ({ blobstore_options with chaos_options := ChaosOptions.new none none },
        applied_chaos)
    else
      (blobstore_options, true)
  else
    (blobstore_options, applied_chaos)

mutual

/-- Embedding of `make_blobstore`: build the node-specific store (recursing
through the multiplex path for Multiplexed/Scrub nodes, which set
`has_components`), then apply the decorator epilogue. -/
def make_blobstore (env : Env) (readonly_storage : Bool)
    (blobstore_options : BlobstoreOptions) :
    BlobConfig → Except String Store
  | .Disabled =>
      wrap_store readonly_storage blobstore_options false
        (.ok (.disabledBlob "Disabled by configuration"))
  | .Files path =>
      wrap_store readonly_storage blobstore_options false
        ((env.fileblob_create (path ++ "/blobs")).map
          fun _ => .fileblob (path ++ "/blobs"))
  | .Sqlite path =>
      wrap_store readonly_storage blobstore_options false
        ((env.sqlblob_with_sqlite_path (path ++ "/blobs") readonly_storage).map
          fun _ => .sqlblobSqlite (path ++ "/blobs") readonly_storage)
  | .Manifold bucket pfx =>
      wrap_store readonly_storage blobstore_options false
        ((env.manifold_new bucket blobstore_options.manifold_api_key).map
          fun _ => .prefixBlobstore ("flat/" ++ pfx)
            (.manifoldBlob bucket blobstore_options.manifold_api_key))
  | .Mysql shard_map shard_num =>
      wrap_store readonly_storage blobstore_options false
        ((env.sqlblob_shardmap shard_map shard_num readonly_storage).map
          fun _ => .sqlblobRemote shard_map shard_num readonly_storage)
  | .Multiplexed multiplex_id scuba_table scuba_sample_rate blobstores queue_db =>
      wrap_store readonly_storage blobstore_options true
        (multiplexed_assemble multiplex_id
          (open_sync_queue env queue_db readonly_storage)
          scuba_table scuba_sample_rate none
          (make_components env
            (component_readonly_for none readonly_storage)
            blobstore_options false blobstores))
  | .Scrub multiplex_id scuba_table scuba_sample_rate blobstores scrub_action queue_db =>
      wrap_store readonly_storage blobstore_options true
        (multiplexed_assemble multiplex_id
          (open_sync_queue env queue_db readonly_storage)
          scuba_table scuba_sample_rate
          (some (.logging false, scrub_action))
          (make_components env
            (component_readonly_for (some (.logging false, scrub_action)) readonly_storage)
            blobstore_options false blobstores))
  | .ManifoldWithTtl bucket pfx ttl =>
      wrap_store readonly_storage blobstore_options false
        ((env.manifold_new_with_ttl bucket ttl blobstore_options.manifold_api_key).map
          fun _ => .prefixBlobstore ("flat/" ++ pfx)
            (.manifoldBlobTtl bucket ttl blobstore_options.manifold_api_key))

/-- Embedding of the component-construction loop of
`make_blobstore_multiplexed`: each component is built by a recursive
`make_blobstore` call with the (possibly chaos-cleared) options, pairing the
resulting store with its BlobstoreId, in list order. -/
def make_components (env : Env) (component_readonly : Bool)
    (blobstore_options : BlobstoreOptions) (applied_chaos : Bool) :
    BlobMembers → Except String StoreMembers
  | .nil => .ok .nil
  | .cons blobstore_id config rest =>
      match make_blobstore env component_readonly
          (chaos_step blobstore_options applied_chaos).1 config with
      | .error e => .error e
      | .ok store =>
          match make_components env component_readonly blobstore_options
              (chaos_step blobstore_options applied_chaos).2 rest with
          | .error e => .error e
          | .ok others => .ok (.cons blobstore_id store others)

end

/-- Embedding of `make_blobstore_multiplexed` itself: compute the component
read-only flag, open the sync-queue database, build the components and
assemble the multiplex (this is the body the Multiplexed and Scrub arms of
`make_blobstore` invoke, before their decorator epilogue). -/
def make_blobstore_multiplexed (env : Env) (multiplex_id : Nat)
    (queue_db : MetadataDBConfig) (scuba_table : Option String)
    (scuba_sample_rate : Nat) (inner_config : BlobMembers)
    (readonly_storage : Bool)
    (scrub_args : Option (ScrubHandler × ScrubAction))
    (blobstore_options : BlobstoreOptions) : Except String Store :=
  multiplexed_assemble multiplex_id
    (open_sync_queue env queue_db readonly_storage)
    scuba_table scuba_sample_rate scrub_args
    (make_components env (component_readonly_for scrub_args readonly_storage)
      blobstore_options false inner_config)

/-- The Multiplexed arm of `make_blobstore` is exactly
`make_blobstore_multiplexed` with no scrub args, under the decorator
epilogue. -/
theorem make_blobstore_multiplexed_spec (env : Env) (readonly_storage : Bool)
    (blobstore_options : BlobstoreOptions) (multiplex_id : Nat)
    (scuba_table : Option String) (scuba_sample_rate : Nat)
    (blobstores : BlobMembers) (queue_db : MetadataDBConfig) :
    make_blobstore env readonly_storage blobstore_options
        (.Multiplexed multiplex_id scuba_table scuba_sample_rate blobstores queue_db) =
      wrap_store readonly_storage blobstore_options true
        (make_blobstore_multiplexed env multiplex_id queue_db scuba_table
          scuba_sample_rate blobstores readonly_storage none blobstore_options) := by
  rfl

/-- The Scrub arm of `make_blobstore` is exactly `make_blobstore_multiplexed`
with a LoggingScrubHandler and the configured action, under the decorator
epilogue. -/
theorem make_blobstore_scrub_spec (env : Env) (readonly_storage : Bool)
    (blobstore_options : BlobstoreOptions) (multiplex_id : Nat)
    (scuba_table : Option String) (scuba_sample_rate : Nat)
    (blobstores : BlobMembers) (scrub_action : ScrubAction)
    (queue_db : MetadataDBConfig) :
    make_blobstore env readonly_storage blobstore_options
        (.Scrub multiplex_id scuba_table scuba_sample_rate blobstores scrub_action queue_db) =
      wrap_store readonly_storage blobstore_options true
        (make_blobstore_multiplexed env multiplex_id queue_db scuba_table
          scuba_sample_rate blobstores readonly_storage
          (some (.logging false, scrub_action)) blobstore_options) := by
  rfl

/-- The pure decorator epilogue on an already-built store: ReadOnly innermost
(applied first), then Throttle, then Chaos outermost. -/
def wrap_pure (readonly_storage : Bool) (blobstore_options : BlobstoreOptions)
    (has_components : Bool) (s : Store) : Store :=
  let s := if readonly_storage then Store.readOnlyBlobstore s else s
  let s := if blobstore_options.throttle_options.has_throttle then
      Store.throttledBlob blobstore_options.throttle_options s
    else s
  if !has_components && blobstore_options.chaos_options.has_chaos then
    Store.chaosBlobstore blobstore_options.chaos_options s
  else s

theorem wrap_store_eq_map (readonly_storage : Bool)
    (blobstore_options : BlobstoreOptions) (has_components : Bool)
    (store : Except String Store) :
    wrap_store readonly_storage blobstore_options has_components store =
      store.map (wrap_pure readonly_storage blobstore_options has_components) := by
  by_cases h1 : readonly_storage = true <;>
  by_cases h2 : blobstore_options.throttle_options.has_throttle = true <;>
  by_cases h3 : (!has_components && blobstore_options.chaos_options.has_chaos) = true <;>
  cases store <;>
    simp [wrap_store, wrap_pure, h1, h2, h3, Except.map]

theorem wrap_store_ok_elim {readonly_storage : Bool}
    {blobstore_options : BlobstoreOptions} {has_components : Bool}
    {store : Except String Store} {s : Store}
    (h : wrap_store readonly_storage blobstore_options has_components store = .ok s) :
    ∃ s0, store = .ok s0 ∧ s = wrap_pure readonly_storage blobstore_options has_components s0 := by
  rw [wrap_store_eq_map] at h
  cases store with
  | error e => simp [Except.map] at h
  | ok s0 => exact ⟨s0, rfl, by simpa [Except.map] using h.symm⟩

theorem multiplexed_assemble_none_ok_elim {multiplex_id : Nat}
    {queue : Except String Nat} {scuba_table : Option String}
    {scuba_sample_rate : Nat}
    {components : Except String StoreMembers} {s : Store}
    (h : multiplexed_assemble multiplex_id queue scuba_table scuba_sample_rate
        none components = .ok s) :
    ∃ q comps, queue = .ok q ∧ components = .ok comps ∧
      s = Store.multiplexedBlobstore multiplex_id comps q scuba_table
        scuba_sample_rate := by
  cases queue with
  | error e => simp [multiplexed_assemble] at h
  | ok q =>
      cases components with
      | error e => simp [multiplexed_assemble] at h
      | ok comps =>
          exact ⟨q, comps, rfl, rfl, by simpa [multiplexed_assemble] using h.symm⟩

theorem multiplexed_assemble_some_ok_elim {multiplex_id : Nat}
    {queue : Except String Nat} {scuba_table : Option String}
    {scuba_sample_rate : Nat} {handler : ScrubHandler} {action : ScrubAction}
    {components : Except String StoreMembers} {s : Store}
    (h : multiplexed_assemble multiplex_id queue scuba_table scuba_sample_rate
        (some (handler, action)) components = .ok s) :
    ∃ q comps, queue = .ok q ∧ components = .ok comps ∧
      s = Store.scrubBlobstore multiplex_id comps q scuba_table
        scuba_sample_rate handler action := by
  cases queue with
  | error e => simp [multiplexed_assemble] at h
  | ok q =>
      cases components with
      | error e => simp [multiplexed_assemble] at h
      | ok comps =>
          exact ⟨q, comps, rfl, rfl, by simpa [multiplexed_assemble] using h.symm⟩

theorem multiplexed_assemble_error {multiplex_id : Nat}
    {e : String} {scuba_table : Option String}
    {scuba_sample_rate : Nat} {scrub_args : Option (ScrubHandler × ScrubAction)}
    {components : Except String StoreMembers} :
    multiplexed_assemble multiplex_id (.error e) scuba_table scuba_sample_rate
      scrub_args components = .error e := by
  rfl

theorem chaos_step_no_chaos {blobstore_options : BlobstoreOptions}
    (hc : blobstore_options.chaos_options.has_chaos = false)
    (applied_chaos : Bool) :
    chaos_step blobstore_options applied_chaos = (blobstore_options, applied_chaos) := by
  simp [chaos_step, hc]

theorem chaos_step_fst_no_chaos {blobstore_options : BlobstoreOptions}
    (h : blobstore_options.chaos_options.has_chaos = true) :
    (chaos_step blobstore_options true).1 =
      { blobstore_options with chaos_options := ChaosOptions.new none none } := by
  simp [chaos_step, h]

theorem chaos_step_snd_true {blobstore_options : BlobstoreOptions} :
    (chaos_step blobstore_options true).2 = true := by
  by_cases h : blobstore_options.chaos_options.has_chaos <;> simp [chaos_step, h]

mutual

/-- Number of ChaosBlobstore wrappers in the whole produced tree. -/
def chaosCount : Store → Nat
  | .prefixBlobstore _ s => chaosCount s
  | .readOnlyBlobstore s => chaosCount s
  | .throttledBlob _ s => chaosCount s
  | .chaosBlobstore _ s => chaosCount s + 1
  | .multiplexedBlobstore _ comps _ _ _ => chaosCountMembers comps
  | .scrubBlobstore _ comps _ _ _ _ _ => chaosCountMembers comps
  | _ => 0

def chaosCountMembers : StoreMembers → Nat
  | .nil => 0
  | .cons _ s rest => chaosCount s + chaosCountMembers rest

end

mutual

/-- Number of ReadOnlyBlobstore wrappers in the whole produced tree. -/
def roCount : Store → Nat
  | .prefixBlobstore _ s => roCount s
  | .readOnlyBlobstore s => roCount s + 1
  | .throttledBlob _ s => roCount s
  | .chaosBlobstore _ s => roCount s
  | .multiplexedBlobstore _ comps _ _ _ => roCountMembers comps
  | .scrubBlobstore _ comps _ _ _ _ _ => roCountMembers comps
  | _ => 0

def roCountMembers : StoreMembers → Nat
  | .nil => 0
  | .cons _ s rest => roCount s + roCountMembers rest

end

/-- Whether the underlying node of a (possibly decorated) store is a
multiplex (has components). -/
def is_mux_node : Store → Bool
  | .prefixBlobstore _ s => is_mux_node s
  | .readOnlyBlobstore s => is_mux_node s
  | .throttledBlob _ s => is_mux_node s
  | .chaosBlobstore _ s => is_mux_node s
  | .multiplexedBlobstore _ _ _ _ _ => true
  | .scrubBlobstore _ _ _ _ _ _ _ => true
  | _ => false

mutual

/-- Every ChaosBlobstore wrapper in the tree sits directly over a leaf
(non-multiplex) node. -/
def chaos_leaf_only : Store → Bool
  | .prefixBlobstore _ s => chaos_leaf_only s
  | .readOnlyBlobstore s => chaos_leaf_only s
  | .throttledBlob _ s => chaos_leaf_only s
  | .chaosBlobstore _ s => !is_mux_node s && chaos_leaf_only s
  | .multiplexedBlobstore _ comps _ _ _ => chaos_leaf_only_members comps
  | .scrubBlobstore _ comps _ _ _ _ _ => chaos_leaf_only_members comps
  | _ => true

def chaos_leaf_only_members : StoreMembers → Bool
  | .nil => true
  | .cons _ s rest => chaos_leaf_only s && chaos_leaf_only_members rest

end

/-- Strip the decorator wrappers (read-only, throttle, chaos) off the top of
a produced store, exposing the node-specific store. -/
def strip_decorators : Store → Store
  | .readOnlyBlobstore s => strip_decorators s
  | .throttledBlob _ s => strip_decorators s
  | .chaosBlobstore _ s => strip_decorators s
  | s => s

/-- The sync-queue handle carried by the (decorated) multiplex store, if any. -/
def mux_queue : Store → Option Nat
  | .readOnlyBlobstore s => mux_queue s
  | .throttledBlob _ s => mux_queue s
  | .chaosBlobstore _ s => mux_queue s
  | .multiplexedBlobstore _ _ q _ _ => some q
  | .scrubBlobstore _ _ q _ _ _ _ => some q
  | _ => none

/-- The component list of the (decorated) multiplex store at the root. -/
def top_mux_components : Store → StoreMembers
  | .readOnlyBlobstore s => top_mux_components s
  | .throttledBlob _ s => top_mux_components s
  | .chaosBlobstore _ s => top_mux_components s
  | .multiplexedBlobstore _ comps _ _ _ => comps
  | .scrubBlobstore _ comps _ _ _ _ _ => comps
  | _ => .nil

/-- The BlobstoreIds of a config component list, in order. -/
def members_ids : BlobMembers → List Nat
  | .nil => []
  | .cons i _ rest => i :: members_ids rest

/-- The BlobstoreIds of a produced component list, in order. -/
def store_members_ids : StoreMembers → List Nat
  | .nil => []
  | .cons i _ rest => i :: store_members_ids rest

mutual

/-- This store, and recursively every multiplex component below it, carries a
ThrottledBlob wrapper on its decorator stack. -/
def throttled_everywhere : Store → Bool
  | .chaosBlobstore _ s => throttled_everywhere s
  | .throttledBlob _ s => throttled_under s
  | _ => false

def throttled_under : Store → Bool
  | .readOnlyBlobstore s => throttled_under s
  | .multiplexedBlobstore _ comps _ _ _ => throttled_members comps
  | .scrubBlobstore _ comps _ _ _ _ _ => throttled_members comps
  | _ => true

def throttled_members : StoreMembers → Bool
  | .nil => true
  | .cons _ s rest => throttled_everywhere s && throttled_members rest

end

/-- Number of ThrottledBlob wrappers an operation passes through on the path
from the root store into the first component of each multiplex. -/
def throttle_path_count : Store → Nat
  | .chaosBlobstore _ s => throttle_path_count s
  | .readOnlyBlobstore s => throttle_path_count s
  | .throttledBlob _ s => throttle_path_count s + 1
  | .prefixBlobstore _ s => throttle_path_count s
  | .multiplexedBlobstore _ (.cons _ s _) _ _ _ => throttle_path_count s
  | .scrubBlobstore _ (.cons _ s _) _ _ _ _ _ => throttle_path_count s
  | _ => 0

mutual

/-- This store, and recursively every multiplex component below it, is
read-only wrapped; except that the components of a Repair-scrub node (and
everything beneath them) carry no read-only wrapper at all. -/
def ro_wrapped_everywhere : Store → Bool
  | .chaosBlobstore _ s => ro_wrapped_everywhere s
  | .throttledBlob _ s => ro_wrapped_everywhere s
  | .readOnlyBlobstore s => ro_wrapped_under s
  | _ => false

def ro_wrapped_under : Store → Bool
  | .multiplexedBlobstore _ comps _ _ _ => ro_wrapped_members comps
  | .scrubBlobstore _ comps _ _ _ _ .Repair => roCountMembers comps == 0
  | .scrubBlobstore _ comps _ _ _ _ .ReportOnly => ro_wrapped_members comps
  | _ => true

def ro_wrapped_members : StoreMembers → Bool
  | .nil => true
  | .cons _ s rest => ro_wrapped_everywhere s && ro_wrapped_members rest

end

theorem map_ok_elim {α β : Type} {x : Except String α} {f : α → β} {b : β}
    (h : x.map f = .ok b) : ∃ a, x = .ok a ∧ b = f a := by
  cases x with
  | error e => simp [Except.map] at h
  | ok a => exact ⟨a, rfl, by simpa [Except.map] using h.symm⟩

theorem chaosCount_wrap_pure (readonly_storage : Bool)
    (blobstore_options : BlobstoreOptions) (has_components : Bool) (s : Store) :
    chaosCount (wrap_pure readonly_storage blobstore_options has_components s) =
      chaosCount s +
        (if !has_components && blobstore_options.chaos_options.has_chaos then 1 else 0) := by
  by_cases h1 : readonly_storage = true <;>
  by_cases h2 : blobstore_options.throttle_options.has_throttle = true <;>
  by_cases h3 : (!has_components && blobstore_options.chaos_options.has_chaos) = true <;>
    simp [wrap_pure, chaosCount, h1, h2, h3]

mutual

theorem make_blobstore_no_chaos (env : Env) (readonly_storage : Bool)
    (blobstore_options : BlobstoreOptions)
    (hc : blobstore_options.chaos_options.has_chaos = false) :
    (cfg : BlobConfig) → (store : Store) →
    make_blobstore env readonly_storage blobstore_options cfg = .ok store →
    chaosCount store = 0
  | .Disabled, store, h => by
      simp only [make_blobstore] at h
      obtain ⟨s0, hX, rfl⟩ := wrap_store_ok_elim h
      obtain rfl : Store.disabledBlob "Disabled by configuration" = s0 := by
        simpa using hX
      simp [chaosCount_wrap_pure, chaosCount, hc]
  | .Files path, store, h => by
      simp only [make_blobstore] at h
      obtain ⟨s0, hX, rfl⟩ := wrap_store_ok_elim h
      obtain ⟨u, hu, rfl⟩ := map_ok_elim hX
      simp [chaosCount_wrap_pure, chaosCount, hc]
  | .Sqlite path, store, h => by
      simp only [make_blobstore] at h
      obtain ⟨s0, hX, rfl⟩ := wrap_store_ok_elim h
      obtain ⟨u, hu, rfl⟩ := map_ok_elim hX
      simp [chaosCount_wrap_pure, chaosCount, hc]
  | .Manifold bucket pfx, store, h => by
      simp only [make_blobstore] at h
      obtain ⟨s0, hX, rfl⟩ := wrap_store_ok_elim h
      obtain ⟨u, hu, rfl⟩ := map_ok_elim hX
      simp [chaosCount_wrap_pure, chaosCount, hc]
  | .Mysql shard_map shard_num, store, h => by
      simp only [make_blobstore] at h
      obtain ⟨s0, hX, rfl⟩ := wrap_store_ok_elim h
      obtain ⟨u, hu, rfl⟩ := map_ok_elim hX
      simp [chaosCount_wrap_pure, chaosCount, hc]
  | .ManifoldWithTtl bucket pfx ttl, store, h => by
      simp only [make_blobstore] at h
      obtain ⟨s0, hX, rfl⟩ := wrap_store_ok_elim h
      obtain ⟨u, hu, rfl⟩ := map_ok_elim hX
      simp [chaosCount_wrap_pure, chaosCount, hc]
  | .Multiplexed multiplex_id scuba_table scuba_sample_rate blobstores queue_db,
      store, h => by
      simp only [make_blobstore] at h
      obtain ⟨s0, hX, rfl⟩ := wrap_store_ok_elim h
      obtain ⟨q, comps, hq, hcomps, rfl⟩ := multiplexed_assemble_none_ok_elim hX
      have hmem := make_components_no_chaos env
        (component_readonly_for none readonly_storage) blobstore_options hc
        false blobstores comps hcomps
      simp [chaosCount_wrap_pure, chaosCount, hc, hmem]
  | .Scrub multiplex_id scuba_table scuba_sample_rate blobstores scrub_action queue_db,
      store, h => by
      simp only [make_blobstore] at h
      obtain ⟨s0, hX, rfl⟩ := wrap_store_ok_elim h
      obtain ⟨q, comps, hq, hcomps, rfl⟩ := multiplexed_assemble_some_ok_elim hX
      have hmem := make_components_no_chaos env
        (component_readonly_for (some (.logging false, scrub_action)) readonly_storage)
        blobstore_options hc false blobstores comps hcomps
      simp [chaosCount_wrap_pure, chaosCount, hc, hmem]

theorem make_components_no_chaos (env : Env) (component_readonly : Bool)
    (blobstore_options : BlobstoreOptions)
    (hc : blobstore_options.chaos_options.has_chaos = false) :
    (applied_chaos : Bool) → (members : BlobMembers) → (comps : StoreMembers) →
    make_components env component_readonly blobstore_options applied_chaos members = .ok comps →
    chaosCountMembers comps = 0
  | _, .nil, comps, h => by
      simp only [make_components] at h
      obtain rfl : StoreMembers.nil = comps := by simpa using h
      simp [chaosCountMembers]
  | applied_chaos, .cons blobstore_id config rest, comps, h => by
      simp only [make_components] at h
      rw [chaos_step_no_chaos hc] at h
      cases hstore : make_blobstore env component_readonly blobstore_options config with
      | error e => rw [hstore] at h; simp at h
      | ok s =>
          rw [hstore] at h
          cases hrest : make_components env component_readonly blobstore_options
              applied_chaos rest with
          | error e => rw [hrest] at h; simp at h
          | ok others =>
              rw [hrest] at h
              obtain rfl : StoreMembers.cons blobstore_id s others = comps := by
                simpa using h
              have h1 := make_blobstore_no_chaos env component_readonly
                blobstore_options hc config s hstore
              have h2 := make_components_no_chaos env component_readonly
                blobstore_options hc applied_chaos rest others hrest
              simp [chaosCountMembers, h1, h2]

end

theorem chaos_step_fst_fresh {blobstore_options : BlobstoreOptions}
    (h : blobstore_options.chaos_options.has_chaos = true) :
    chaos_step blobstore_options false = (blobstore_options, true) := by
  simp [chaos_step, h]

theorem chaos_step_applied {blobstore_options : BlobstoreOptions}
    (h : blobstore_options.chaos_options.has_chaos = true) :
    chaos_step blobstore_options true =
      ({ blobstore_options with chaos_options := ChaosOptions.new none none }, true) := by
  simp [chaos_step, h]

theorem chaos_step_throttle (blobstore_options : BlobstoreOptions)
    (applied_chaos : Bool) :
    (chaos_step blobstore_options applied_chaos).1.throttle_options =
      blobstore_options.throttle_options := by
  by_cases h : blobstore_options.chaos_options.has_chaos = true <;>
    cases applied_chaos <;> simp [chaos_step, h]

theorem make_components_nil_elim {env : Env} {component_readonly : Bool}
    {blobstore_options : BlobstoreOptions} {applied_chaos : Bool}
    {comps : StoreMembers}
    (h : make_components env component_readonly blobstore_options applied_chaos
        .nil = .ok comps) : comps = .nil := by
  simp only [make_components] at h
  injection h with h2
  exact h2.symm

theorem make_components_cons_elim {env : Env} {component_readonly : Bool}
    {blobstore_options : BlobstoreOptions} {applied_chaos : Bool}
    {blobstore_id : Nat} {config : BlobConfig} {rest : BlobMembers}
    {comps : StoreMembers}
    (h : make_components env component_readonly blobstore_options applied_chaos
        (.cons blobstore_id config rest) = .ok comps) :
    ∃ s others,
      make_blobstore env component_readonly
        (chaos_step blobstore_options applied_chaos).1 config = .ok s ∧
      make_components env component_readonly blobstore_options
        (chaos_step blobstore_options applied_chaos).2 rest = .ok others ∧
      comps = .cons blobstore_id s others := by
  simp only [make_components] at h
  cases hstore : make_blobstore env component_readonly
      (chaos_step blobstore_options applied_chaos).1 config with
  | error e => rw [hstore] at h; simp at h
  | ok s =>
      rw [hstore] at h
      cases hrest : make_components env component_readonly blobstore_options
          (chaos_step blobstore_options applied_chaos).2 rest with
      | error e => rw [hrest] at h; simp at h
      | ok others =>
          rw [hrest] at h
          injection h with h2
          exact ⟨s, others, rfl, rfl, h2.symm⟩

mutual

theorem make_blobstore_chaos_le_one (env : Env) :
    (readonly_storage : Bool) → (blobstore_options : BlobstoreOptions) →
    (cfg : BlobConfig) → (store : Store) →
    make_blobstore env readonly_storage blobstore_options cfg = .ok store →
    chaosCount store ≤ 1
  | _, _, .Disabled, store, h => by
      simp only [make_blobstore] at h
      obtain ⟨s0, hX, rfl⟩ := wrap_store_ok_elim h
      obtain rfl : Store.disabledBlob "Disabled by configuration" = s0 := by
        simpa using hX
      simp [chaosCount_wrap_pure, chaosCount]
      split <;> simp
  | _, _, .Files path, store, h => by
      simp only [make_blobstore] at h
      obtain ⟨s0, hX, rfl⟩ := wrap_store_ok_elim h
      obtain ⟨u, hu, rfl⟩ := map_ok_elim hX
      simp [chaosCount_wrap_pure, chaosCount]
      split <;> simp
  | _, _, .Sqlite path, store, h => by
      simp only [make_blobstore] at h
      obtain ⟨s0, hX, rfl⟩ := wrap_store_ok_elim h
      obtain ⟨u, hu, rfl⟩ := map_ok_elim hX
      simp [chaosCount_wrap_pure, chaosCount]
      split <;> simp
  | _, _, .Manifold bucket pfx, store, h => by
      simp only [make_blobstore] at h
      obtain ⟨s0, hX, rfl⟩ := wrap_store_ok_elim h
      obtain ⟨u, hu, rfl⟩ := map_ok_elim hX
      simp [chaosCount_wrap_pure, chaosCount]
      split <;> simp
  | _, _, .Mysql shard_map shard_num, store, h => by
      simp only [make_blobstore] at h
      obtain ⟨s0, hX, rfl⟩ := wrap_store_ok_elim h
      obtain ⟨u, hu, rfl⟩ := map_ok_elim hX
      simp [chaosCount_wrap_pure, chaosCount]
      split <;> simp
  | _, _, .ManifoldWithTtl bucket pfx ttl, store, h => by
      simp only [make_blobstore] at h
      obtain ⟨s0, hX, rfl⟩ := wrap_store_ok_elim h
      obtain ⟨u, hu, rfl⟩ := map_ok_elim hX
      simp [chaosCount_wrap_pure, chaosCount]
      split <;> simp
  | readonly_storage, blobstore_options,
      .Multiplexed multiplex_id scuba_table scuba_sample_rate blobstores queue_db,
      store, h => by
      simp only [make_blobstore] at h
      obtain ⟨s0, hX, rfl⟩ := wrap_store_ok_elim h
      obtain ⟨q, comps, hq, hcomps, rfl⟩ := multiplexed_assemble_none_ok_elim hX
      have hmem := make_components_chaos_fresh_le_one env
        (component_readonly_for none readonly_storage) blobstore_options
        blobstores comps hcomps
      simpa [chaosCount_wrap_pure, chaosCount] using hmem
  | readonly_storage, blobstore_options,
      .Scrub multiplex_id scuba_table scuba_sample_rate blobstores scrub_action queue_db,
      store, h => by
      simp only [make_blobstore] at h
      obtain ⟨s0, hX, rfl⟩ := wrap_store_ok_elim h
      obtain ⟨q, comps, hq, hcomps, rfl⟩ := multiplexed_assemble_some_ok_elim hX
      have hmem := make_components_chaos_fresh_le_one env
        (component_readonly_for (some (.logging false, scrub_action)) readonly_storage)
        blobstore_options blobstores comps hcomps
      simpa [chaosCount_wrap_pure, chaosCount] using hmem

theorem make_components_chaos_applied_zero (env : Env) :
    (component_readonly : Bool) → (blobstore_options : BlobstoreOptions) →
    (members : BlobMembers) → (comps : StoreMembers) →
    make_components env component_readonly blobstore_options true members = .ok comps →
    chaosCountMembers comps = 0
  | _, _, .nil, comps, h => by
      rw [make_components_nil_elim h]
      simp [chaosCountMembers]
  | component_readonly, blobstore_options, .cons blobstore_id config rest, comps, h => by
      obtain ⟨s, others, hstore, hrest, rfl⟩ := make_components_cons_elim h
      by_cases hch : blobstore_options.chaos_options.has_chaos = true
      · rw [chaos_step_applied hch] at hstore hrest
        have h1 : chaosCount s = 0 :=
          make_blobstore_no_chaos env component_readonly
            { blobstore_options with chaos_options := ChaosOptions.new none none }
            rfl config s hstore
        have h2 : chaosCountMembers others = 0 :=
          make_components_chaos_applied_zero env component_readonly
            blobstore_options rest others hrest
        simp [chaosCountMembers, h1, h2]
      · rw [chaos_step_no_chaos (by simpa using hch)] at hstore hrest
        have h1 : chaosCount s = 0 :=
          make_blobstore_no_chaos env component_readonly blobstore_options
            (by simpa using hch) config s hstore
        have h2 : chaosCountMembers others = 0 :=
          make_components_chaos_applied_zero env component_readonly
            blobstore_options rest others hrest
        simp [chaosCountMembers, h1, h2]

theorem make_components_chaos_fresh_le_one (env : Env) :
    (component_readonly : Bool) → (blobstore_options : BlobstoreOptions) →
    (members : BlobMembers) → (comps : StoreMembers) →
    make_components env component_readonly blobstore_options false members = .ok comps →
    chaosCountMembers comps ≤ 1
  | _, _, .nil, comps, h => by
      rw [make_components_nil_elim h]
      simp [chaosCountMembers]
  | component_readonly, blobstore_options, .cons blobstore_id config rest, comps, h => by
      obtain ⟨s, others, hstore, hrest, rfl⟩ := make_components_cons_elim h
      by_cases hch : blobstore_options.chaos_options.has_chaos = true
      · rw [chaos_step_fst_fresh hch] at hstore hrest
        have h1 : chaosCount s ≤ 1 :=
          make_blobstore_chaos_le_one env component_readonly blobstore_options
            config s hstore
        have h2 : chaosCountMembers others = 0 :=
          make_components_chaos_applied_zero env component_readonly
            blobstore_options rest others hrest
        simp [chaosCountMembers, h2]
        omega
      · rw [chaos_step_no_chaos (by simpa using hch)] at hstore hrest
        have h1 : chaosCount s = 0 :=
          make_blobstore_no_chaos env component_readonly blobstore_options
            (by simpa using hch) config s hstore
        have h2 : chaosCountMembers others ≤ 1 :=
          make_components_chaos_fresh_le_one env component_readonly
            blobstore_options rest others hrest
        simp [chaosCountMembers, h1]
        omega

end

theorem chaos_leaf_only_wrap_pure_leaf {s : Store}
    (hmux : is_mux_node s = false) (hleaf : chaos_leaf_only s = true)
    (readonly_storage : Bool) (blobstore_options : BlobstoreOptions)
    (has_components : Bool) :
    chaos_leaf_only
      (wrap_pure readonly_storage blobstore_options has_components s) = true := by
  by_cases h1 : readonly_storage = true <;>
  by_cases h2 : blobstore_options.throttle_options.has_throttle = true <;>
  by_cases h3 : (!has_components && blobstore_options.chaos_options.has_chaos) = true <;>
    simp [wrap_pure, chaos_leaf_only, is_mux_node, h1, h2, h3, hmux, hleaf]

theorem chaos_leaf_only_wrap_pure_mux {s : Store}
    (readonly_storage : Bool) (blobstore_options : BlobstoreOptions) :
    chaos_leaf_only (wrap_pure readonly_storage blobstore_options true s) =
      chaos_leaf_only s := by
  by_cases h1 : readonly_storage = true <;>
  by_cases h2 : blobstore_options.throttle_options.has_throttle = true <;>
    simp [wrap_pure, chaos_leaf_only, h1, h2]

mutual

theorem make_blobstore_chaos_leaf (env : Env) :
    (readonly_storage : Bool) → (blobstore_options : BlobstoreOptions) →
    (cfg : BlobConfig) → (store : Store) →
    make_blobstore env readonly_storage blobstore_options cfg = .ok store →
    chaos_leaf_only store = true
  | _, _, .Disabled, store, h => by
      simp only [make_blobstore] at h
      obtain ⟨s0, hX, rfl⟩ := wrap_store_ok_elim h
      obtain rfl : Store.disabledBlob "Disabled by configuration" = s0 := by
        simpa using hX
      exact chaos_leaf_only_wrap_pure_leaf (by simp [is_mux_node])
        (by simp [chaos_leaf_only]) _ _ _
  | _, _, .Files path, store, h => by
      simp only [make_blobstore] at h
      obtain ⟨s0, hX, rfl⟩ := wrap_store_ok_elim h
      obtain ⟨u, hu, rfl⟩ := map_ok_elim hX
      exact chaos_leaf_only_wrap_pure_leaf (by simp [is_mux_node])
        (by simp [chaos_leaf_only]) _ _ _
  | _, _, .Sqlite path, store, h => by
      simp only [make_blobstore] at h
      obtain ⟨s0, hX, rfl⟩ := wrap_store_ok_elim h
      obtain ⟨u, hu, rfl⟩ := map_ok_elim hX
      exact chaos_leaf_only_wrap_pure_leaf (by simp [is_mux_node])
        (by simp [chaos_leaf_only]) _ _ _
  | _, _, .Manifold bucket pfx, store, h => by
      simp only [make_blobstore] at h
      obtain ⟨s0, hX, rfl⟩ := wrap_store_ok_elim h
      obtain ⟨u, hu, rfl⟩ := map_ok_elim hX
      exact chaos_leaf_only_wrap_pure_leaf (by simp [is_mux_node])
        (by simp [chaos_leaf_only]) _ _ _
  | _, _, .Mysql shard_map shard_num, store, h => by
      simp only [make_blobstore] at h
      obtain ⟨s0, hX, rfl⟩ := wrap_store_ok_elim h
      obtain ⟨u, hu, rfl⟩ := map_ok_elim hX
      exact chaos_leaf_only_wrap_pure_leaf (by simp [is_mux_node])
        (by simp [chaos_leaf_only]) _ _ _
  | _, _, .ManifoldWithTtl bucket pfx ttl, store, h => by
      simp only [make_blobstore] at h
      obtain ⟨s0, hX, rfl⟩ := wrap_store_ok_elim h
      obtain ⟨u, hu, rfl⟩ := map_ok_elim hX
      exact chaos_leaf_only_wrap_pure_leaf (by simp [is_mux_node])
        (by simp [chaos_leaf_only]) _ _ _
  | readonly_storage, blobstore_options,
      .Multiplexed multiplex_id scuba_table scuba_sample_rate blobstores queue_db,
      store, h => by
      simp only [make_blobstore] at h
      obtain ⟨s0, hX, rfl⟩ := wrap_store_ok_elim h
      obtain ⟨q, comps, hq, hcomps, rfl⟩ := multiplexed_assemble_none_ok_elim hX
      have hmem := make_components_chaos_leaf env
        (component_readonly_for none readonly_storage) blobstore_options
        false blobstores comps hcomps
      rw [chaos_leaf_only_wrap_pure_mux]
      simpa [chaos_leaf_only] using hmem
  | readonly_storage, blobstore_options,
      .Scrub multiplex_id scuba_table scuba_sample_rate blobstores scrub_action queue_db,
      store, h => by
      simp only [make_blobstore] at h
      obtain ⟨s0, hX, rfl⟩ := wrap_store_ok_elim h
      obtain ⟨q, comps, hq, hcomps, rfl⟩ := multiplexed_assemble_some_ok_elim hX
      have hmem := make_components_chaos_leaf env
        (component_readonly_for (some (.logging false, scrub_action)) readonly_storage)
        blobstore_options false blobstores comps hcomps
      rw [chaos_leaf_only_wrap_pure_mux]
      simpa [chaos_leaf_only] using hmem

theorem make_components_chaos_leaf (env : Env) :
    (component_readonly : Bool) → (blobstore_options : BlobstoreOptions) →
    (applied_chaos : Bool) → (members : BlobMembers) → (comps : StoreMembers) →
    make_components env component_readonly blobstore_options applied_chaos
      members = .ok comps →
    chaos_leaf_only_members comps = true
  | _, _, _, .nil, comps, h => by
      rw [make_components_nil_elim h]
      simp [chaos_leaf_only_members]
  | component_readonly, blobstore_options, applied_chaos,
      .cons blobstore_id config rest, comps, h => by
      obtain ⟨s, others, hstore, hrest, rfl⟩ := make_components_cons_elim h
      have h1 := make_blobstore_chaos_leaf env component_readonly
        (chaos_step blobstore_options applied_chaos).1 config s hstore
      have h2 := make_components_chaos_leaf env component_readonly
        blobstore_options (chaos_step blobstore_options applied_chaos).2
        rest others hrest
      simp [chaos_leaf_only_members, h1, h2]

end

theorem roCount_wrap_pure (readonly_storage : Bool)
    (blobstore_options : BlobstoreOptions) (has_components : Bool) (s : Store) :
    roCount (wrap_pure readonly_storage blobstore_options has_components s) =
      roCount s + (if readonly_storage = true then 1 else 0) := by
  by_cases h1 : readonly_storage = true <;>
  by_cases h2 : blobstore_options.throttle_options.has_throttle = true <;>
  by_cases h3 : (!has_components && blobstore_options.chaos_options.has_chaos) = true <;>
    simp [wrap_pure, roCount, h1, h2, h3]

theorem component_readonly_for_false (scrub_args : Option (ScrubHandler × ScrubAction)) :
    component_readonly_for scrub_args false = false := by
  match scrub_args with
  | none => rfl
  | some (handler, .Repair) => rfl
  | some (handler, .ReportOnly) => rfl

mutual

theorem make_blobstore_ro_off (env : Env) :
    (blobstore_options : BlobstoreOptions) →
    (cfg : BlobConfig) → (store : Store) →
    make_blobstore env false blobstore_options cfg = .ok store →
    roCount store = 0
  | _, .Disabled, store, h => by
      simp only [make_blobstore] at h
      obtain ⟨s0, hX, rfl⟩ := wrap_store_ok_elim h
      obtain rfl : Store.disabledBlob "Disabled by configuration" = s0 := by
        simpa using hX
      simp [roCount_wrap_pure, roCount]
  | _, .Files path, store, h => by
      simp only [make_blobstore] at h
      obtain ⟨s0, hX, rfl⟩ := wrap_store_ok_elim h
      obtain ⟨u, hu, rfl⟩ := map_ok_elim hX
      simp [roCount_wrap_pure, roCount]
  | _, .Sqlite path, store, h => by
      simp only [make_blobstore] at h
      obtain ⟨s0, hX, rfl⟩ := wrap_store_ok_elim h
      obtain ⟨u, hu, rfl⟩ := map_ok_elim hX
      simp [roCount_wrap_pure, roCount]
  | _, .Manifold bucket pfx, store, h => by
      simp only [make_blobstore] at h
      obtain ⟨s0, hX, rfl⟩ := wrap_store_ok_elim h
      obtain ⟨u, hu, rfl⟩ := map_ok_elim hX
      simp [roCount_wrap_pure, roCount]
  | _, .Mysql shard_map shard_num, store, h => by
      simp only [make_blobstore] at h
      obtain ⟨s0, hX, rfl⟩ := wrap_store_ok_elim h
      obtain ⟨u, hu, rfl⟩ := map_ok_elim hX
      simp [roCount_wrap_pure, roCount]
  | _, .ManifoldWithTtl bucket pfx ttl, store, h => by
      simp only [make_blobstore] at h
      obtain ⟨s0, hX, rfl⟩ := wrap_store_ok_elim h
      obtain ⟨u, hu, rfl⟩ := map_ok_elim hX
      simp [roCount_wrap_pure, roCount]
  | blobstore_options,
      .Multiplexed multiplex_id scuba_table scuba_sample_rate blobstores queue_db,
      store, h => by
      simp only [make_blobstore] at h
      obtain ⟨s0, hX, rfl⟩ := wrap_store_ok_elim h
      obtain ⟨q, comps, hq, hcomps, rfl⟩ := multiplexed_assemble_none_ok_elim hX
      rw [component_readonly_for_false] at hcomps
      have hmem := make_components_ro_off env blobstore_options false
        blobstores comps hcomps
      simp [roCount_wrap_pure, roCount, hmem]
  | blobstore_options,
      .Scrub multiplex_id scuba_table scuba_sample_rate blobstores scrub_action queue_db,
      store, h => by
      simp only [make_blobstore] at h
      obtain ⟨s0, hX, rfl⟩ := wrap_store_ok_elim h
      obtain ⟨q, comps, hq, hcomps, rfl⟩ := multiplexed_assemble_some_ok_elim hX
      rw [component_readonly_for_false] at hcomps
      have hmem := make_components_ro_off env blobstore_options false
        blobstores comps hcomps
      simp [roCount_wrap_pure, roCount, hmem]

theorem make_components_ro_off (env : Env) :
    (blobstore_options : BlobstoreOptions) → (applied_chaos : Bool) →
    (members : BlobMembers) → (comps : StoreMembers) →
    make_components env false blobstore_options applied_chaos members = .ok comps →
    roCountMembers comps = 0
  | _, _, .nil, comps, h => by
      rw [make_components_nil_elim h]
      simp [roCountMembers]
  | blobstore_options, applied_chaos, .cons blobstore_id config rest, comps, h => by
      obtain ⟨s, others, hstore, hrest, rfl⟩ := make_components_cons_elim h
      have h1 := make_blobstore_ro_off env
        (chaos_step blobstore_options applied_chaos).1 config s hstore
      have h2 := make_components_ro_off env blobstore_options
        (chaos_step blobstore_options applied_chaos).2 rest others hrest
      simp [roCountMembers, h1, h2]

end

theorem ro_wrapped_wrap_pure {s : Store} (hunder : ro_wrapped_under s = true)
    (blobstore_options : BlobstoreOptions) (has_components : Bool) :
    ro_wrapped_everywhere (wrap_pure true blobstore_options has_components s) = true := by
  by_cases h2 : blobstore_options.throttle_options.has_throttle = true <;>
  by_cases h3 : (!has_components && blobstore_options.chaos_options.has_chaos) = true <;>
    simp [wrap_pure, ro_wrapped_everywhere, h2, h3, hunder]

mutual

theorem make_blobstore_ro_wrapped (env : Env) :
    (blobstore_options : BlobstoreOptions) →
    (cfg : BlobConfig) → (store : Store) →
    make_blobstore env true blobstore_options cfg = .ok store →
    ro_wrapped_everywhere store = true
  | _, .Disabled, store, h => by
      simp only [make_blobstore] at h
      obtain ⟨s0, hX, rfl⟩ := wrap_store_ok_elim h
      obtain rfl : Store.disabledBlob "Disabled by configuration" = s0 := by
        simpa using hX
      exact ro_wrapped_wrap_pure (by simp [ro_wrapped_under]) _ _
  | _, .Files path, store, h => by
      simp only [make_blobstore] at h
      obtain ⟨s0, hX, rfl⟩ := wrap_store_ok_elim h
      obtain ⟨u, hu, rfl⟩ := map_ok_elim hX
      exact ro_wrapped_wrap_pure (by simp [ro_wrapped_under]) _ _
  | _, .Sqlite path, store, h => by
      simp only [make_blobstore] at h
      obtain ⟨s0, hX, rfl⟩ := wrap_store_ok_elim h
      obtain ⟨u, hu, rfl⟩ := map_ok_elim hX
      exact ro_wrapped_wrap_pure (by simp [ro_wrapped_under]) _ _
  | _, .Manifold bucket pfx, store, h => by
      simp only [make_blobstore] at h
      obtain ⟨s0, hX, rfl⟩ := wrap_store_ok_elim h
      obtain ⟨u, hu, rfl⟩ := map_ok_elim hX
      exact ro_wrapped_wrap_pure (by simp [ro_wrapped_under]) _ _
  | _, .Mysql shard_map shard_num, store, h => by
      simp only [make_blobstore] at h
      obtain ⟨s0, hX, rfl⟩ := wrap_store_ok_elim h
      obtain ⟨u, hu, rfl⟩ := map_ok_elim hX
      exact ro_wrapped_wrap_pure (by simp [ro_wrapped_under]) _ _
  | _, .ManifoldWithTtl bucket pfx ttl, store, h => by
      simp only [make_blobstore] at h
      obtain ⟨s0, hX, rfl⟩ := wrap_store_ok_elim h
      obtain ⟨u, hu, rfl⟩ := map_ok_elim hX
      exact ro_wrapped_wrap_pure (by simp [ro_wrapped_under]) _ _
  | blobstore_options,
      .Multiplexed multiplex_id scuba_table scuba_sample_rate blobstores queue_db,
      store, h => by
      simp only [make_blobstore] at h
      obtain ⟨s0, hX, rfl⟩ := wrap_store_ok_elim h
      obtain ⟨q, comps, hq, hcomps, rfl⟩ := multiplexed_assemble_none_ok_elim hX
      have hmem := make_components_ro_wrapped env blobstore_options false
        blobstores comps hcomps
      exact ro_wrapped_wrap_pure (by simp [ro_wrapped_under, hmem]) _ _
  | blobstore_options,
      .Scrub multiplex_id scuba_table scuba_sample_rate blobstores scrub_action queue_db,
      store, h => by
      simp only [make_blobstore] at h
      obtain ⟨s0, hX, rfl⟩ := wrap_store_ok_elim h
      obtain ⟨q, comps, hq, hcomps, rfl⟩ := multiplexed_assemble_some_ok_elim hX
      cases scrub_action with
      | ReportOnly =>
          have hmem := make_components_ro_wrapped env blobstore_options false
            blobstores comps hcomps
          exact ro_wrapped_wrap_pure (by simp [ro_wrapped_under, hmem]) _ _
      | Repair =>
          have hro : component_readonly_for
              (some (ScrubHandler.logging false, ScrubAction.Repair)) true = false := rfl
          rw [hro] at hcomps
          have hmem := make_components_ro_off env blobstore_options false
            blobstores comps hcomps
          exact ro_wrapped_wrap_pure (by simp [ro_wrapped_under, hmem]) _ _

theorem make_components_ro_wrapped (env : Env) :
    (blobstore_options : BlobstoreOptions) → (applied_chaos : Bool) →
    (members : BlobMembers) → (comps : StoreMembers) →
    make_components env true blobstore_options applied_chaos members = .ok comps →
    ro_wrapped_members comps = true
  | _, _, .nil, comps, h => by
      rw [make_components_nil_elim h]
      simp [ro_wrapped_members]
  | blobstore_options, applied_chaos, .cons blobstore_id config rest, comps, h => by
      obtain ⟨s, others, hstore, hrest, rfl⟩ := make_components_cons_elim h
      have h1 := make_blobstore_ro_wrapped env
        (chaos_step blobstore_options applied_chaos).1 config s hstore
      have h2 := make_components_ro_wrapped env blobstore_options
        (chaos_step blobstore_options applied_chaos).2 rest others hrest
      simp [ro_wrapped_members, h1, h2]

end

theorem throttled_wrap_pure {s : Store} {blobstore_options : BlobstoreOptions}
    (ht : blobstore_options.throttle_options.has_throttle = true)
    (hunder : throttled_under s = true)
    (readonly_storage : Bool) (has_components : Bool) :
    throttled_everywhere
      (wrap_pure readonly_storage blobstore_options has_components s) = true := by
  by_cases h1 : readonly_storage = true <;>
  by_cases h3 : (!has_components && blobstore_options.chaos_options.has_chaos) = true <;>
    simp [wrap_pure, throttled_everywhere, throttled_under, h1, h3, ht, hunder]

mutual

theorem make_blobstore_throttled (env : Env) :
    (readonly_storage : Bool) → (blobstore_options : BlobstoreOptions) →
    blobstore_options.throttle_options.has_throttle = true →
    (cfg : BlobConfig) → (store : Store) →
    make_blobstore env readonly_storage blobstore_options cfg = .ok store →
    throttled_everywhere store = true
  | _, _, ht, .Disabled, store, h => by
      simp only [make_blobstore] at h
      obtain ⟨s0, hX, rfl⟩ := wrap_store_ok_elim h
      obtain rfl : Store.disabledBlob "Disabled by configuration" = s0 := by
        simpa using hX
      exact throttled_wrap_pure ht (by simp [throttled_under]) _ _
  | _, _, ht, .Files path, store, h => by
      simp only [make_blobstore] at h
      obtain ⟨s0, hX, rfl⟩ := wrap_store_ok_elim h
      obtain ⟨u, hu, rfl⟩ := map_ok_elim hX
      exact throttled_wrap_pure ht (by simp [throttled_under]) _ _
  | _, _, ht, .Sqlite path, store, h => by
      simp only [make_blobstore] at h
      obtain ⟨s0, hX, rfl⟩ := wrap_store_ok_elim h
      obtain ⟨u, hu, rfl⟩ := map_ok_elim hX
      exact throttled_wrap_pure ht (by simp [throttled_under]) _ _
  | _, _, ht, .Manifold bucket pfx, store, h => by
      simp only [make_blobstore] at h
      obtain ⟨s0, hX, rfl⟩ := wrap_store_ok_elim h
      obtain ⟨u, hu, rfl⟩ := map_ok_elim hX
      exact throttled_wrap_pure ht (by simp [throttled_under]) _ _
  | _, _, ht, .Mysql shard_map shard_num, store, h => by
      simp only [make_blobstore] at h
      obtain ⟨s0, hX, rfl⟩ := wrap_store_ok_elim h
      obtain ⟨u, hu, rfl⟩ := map_ok_elim hX
      exact throttled_wrap_pure ht (by simp [throttled_under]) _ _
  | _, _, ht, .ManifoldWithTtl bucket pfx ttl, store, h => by
      simp only [make_blobstore] at h
      obtain ⟨s0, hX, rfl⟩ := wrap_store_ok_elim h
      obtain ⟨u, hu, rfl⟩ := map_ok_elim hX
      exact throttled_wrap_pure ht (by simp [throttled_under]) _ _
  | readonly_storage, blobstore_options, ht,
      .Multiplexed multiplex_id scuba_table scuba_sample_rate blobstores queue_db,
      store, h => by
      simp only [make_blobstore] at h
      obtain ⟨s0, hX, rfl⟩ := wrap_store_ok_elim h
      obtain ⟨q, comps, hq, hcomps, rfl⟩ := multiplexed_assemble_none_ok_elim hX
      have hmem := make_components_throttled env
        (component_readonly_for none readonly_storage) blobstore_options ht
        false blobstores comps hcomps
      exact throttled_wrap_pure ht (by simp [throttled_under, hmem]) _ _
  | readonly_storage, blobstore_options, ht,
      .Scrub multiplex_id scuba_table scuba_sample_rate blobstores scrub_action queue_db,
      store, h => by
      simp only [make_blobstore] at h
      obtain ⟨s0, hX, rfl⟩ := wrap_store_ok_elim h
      obtain ⟨q, comps, hq, hcomps, rfl⟩ := multiplexed_assemble_some_ok_elim hX
      have hmem := make_components_throttled env
        (component_readonly_for (some (.logging false, scrub_action)) readonly_storage)
        blobstore_options ht false blobstores comps hcomps
      exact throttled_wrap_pure ht (by simp [throttled_under, hmem]) _ _

theorem make_components_throttled (env : Env) :
    (component_readonly : Bool) → (blobstore_options : BlobstoreOptions) →
    blobstore_options.throttle_options.has_throttle = true →
    (applied_chaos : Bool) → (members : BlobMembers) → (comps : StoreMembers) →
    make_components env component_readonly blobstore_options applied_chaos
      members = .ok comps →
    throttled_members comps = true
  | _, _, _, _, .nil, comps, h => by
      rw [make_components_nil_elim h]
      simp [throttled_members]
  | component_readonly, blobstore_options, ht, applied_chaos,
      .cons blobstore_id config rest, comps, h => by
      obtain ⟨s, others, hstore, hrest, rfl⟩ := make_components_cons_elim h
      have ht1 : (chaos_step blobstore_options applied_chaos).1.throttle_options.has_throttle
          = true := by
        rw [chaos_step_throttle]; exact ht
      have h1 := make_blobstore_throttled env component_readonly
        (chaos_step blobstore_options applied_chaos).1 ht1 config s hstore
      have h2 := make_components_throttled env component_readonly
        blobstore_options ht (chaos_step blobstore_options applied_chaos).2
        rest others hrest
      simp [throttled_members, h1, h2]

end

theorem mux_queue_wrap_pure (readonly_storage : Bool)
    (blobstore_options : BlobstoreOptions) (has_components : Bool) (s : Store) :
    mux_queue (wrap_pure readonly_storage blobstore_options has_components s) =
      mux_queue s := by
  by_cases h1 : readonly_storage = true <;>
  by_cases h2 : blobstore_options.throttle_options.has_throttle = true <;>
  by_cases h3 : (!has_components && blobstore_options.chaos_options.has_chaos) = true <;>
    simp [wrap_pure, mux_queue, h1, h2, h3]

theorem strip_decorators_wrap_pure (readonly_storage : Bool)
    (blobstore_options : BlobstoreOptions) (has_components : Bool) (s : Store) :
    strip_decorators (wrap_pure readonly_storage blobstore_options has_components s) =
      strip_decorators s := by
  by_cases h1 : readonly_storage = true <;>
  by_cases h2 : blobstore_options.throttle_options.has_throttle = true <;>
  by_cases h3 : (!has_components && blobstore_options.chaos_options.has_chaos) = true <;>
    simp [wrap_pure, strip_decorators, h1, h2, h3]

theorem top_mux_components_wrap_pure (readonly_storage : Bool)
    (blobstore_options : BlobstoreOptions) (has_components : Bool) (s : Store) :
    top_mux_components (wrap_pure readonly_storage blobstore_options has_components s) =
      top_mux_components s := by
  by_cases h1 : readonly_storage = true <;>
  by_cases h2 : blobstore_options.throttle_options.has_throttle = true <;>
  by_cases h3 : (!has_components && blobstore_options.chaos_options.has_chaos) = true <;>
    simp [wrap_pure, top_mux_components, h1, h2, h3]

theorem throttle_path_count_wrap_pure (readonly_storage : Bool)
    (blobstore_options : BlobstoreOptions) (has_components : Bool) (s : Store) :
    throttle_path_count
        (wrap_pure readonly_storage blobstore_options has_components s) =
      throttle_path_count s +
        (if blobstore_options.throttle_options.has_throttle = true then 1 else 0) := by
  by_cases h1 : readonly_storage = true <;>
  by_cases h2 : blobstore_options.throttle_options.has_throttle = true <;>
  by_cases h3 : (!has_components && blobstore_options.chaos_options.has_chaos) = true <;>
    simp [wrap_pure, throttle_path_count, h1, h2, h3]

theorem throttled_path_ge_one :
    (s : Store) → throttled_everywhere s = true → 1 ≤ throttle_path_count s
  | .chaosBlobstore _ s, h => by
      simp only [throttled_everywhere] at h
      have := throttled_path_ge_one s h
      simpa [throttle_path_count] using this
  | .throttledBlob _ s, _ => by
      simp [throttle_path_count]
  | .disabledBlob _, h => by simp [throttled_everywhere] at h
  | .fileblob _, h => by simp [throttled_everywhere] at h
  | .sqlblobSqlite _ _, h => by simp [throttled_everywhere] at h
  | .manifoldBlob _ _, h => by simp [throttled_everywhere] at h
  | .manifoldBlobTtl _ _ _, h => by simp [throttled_everywhere] at h
  | .sqlblobRemote _ _ _, h => by simp [throttled_everywhere] at h
  | .prefixBlobstore _ _, h => by simp [throttled_everywhere] at h
  | .readOnlyBlobstore _, h => by simp [throttled_everywhere] at h
  | .multiplexedBlobstore _ _ _ _ _, h => by simp [throttled_everywhere] at h
  | .scrubBlobstore _ _ _ _ _ _ _, h => by simp [throttled_everywhere] at h

theorem make_components_ids (env : Env) :
    (component_readonly : Bool) → (blobstore_options : BlobstoreOptions) →
    (applied_chaos : Bool) → (members : BlobMembers) → (comps : StoreMembers) →
    make_components env component_readonly blobstore_options applied_chaos
      members = .ok comps →
    store_members_ids comps = members_ids members
  | _, _, _, .nil, comps, h => by
      rw [make_components_nil_elim h]
      simp [store_members_ids, members_ids]
  | component_readonly, blobstore_options, applied_chaos,
      .cons blobstore_id config rest, comps, h => by
      obtain ⟨s, others, hstore, hrest, rfl⟩ := make_components_cons_elim h
      have ih := make_components_ids env component_readonly blobstore_options
        (chaos_step blobstore_options applied_chaos).2 rest others hrest
      simp [store_members_ids, members_ids, ih]

theorem component_readonly_for_none (readonly_storage : Bool) :
    component_readonly_for none readonly_storage = readonly_storage := rfl

/-- A config node with no components (not Multiplexed, not Scrub). -/
def leaf_config : BlobConfig → Bool
  | .Multiplexed _ _ _ _ _ => false
  | .Scrub _ _ _ _ _ _ => false
  | _ => true

/-- Whether the outermost wrapper of a produced store is the read-only one. -/
def is_read_only_top : Store → Bool
  | .readOnlyBlobstore _ => true
  | _ => false

/-- Whether the outermost wrapper of a produced store is the chaos one. -/
def is_chaos_top : Store → Bool
  | .chaosBlobstore _ _ => true
  | _ => false

theorem wrap_pure_full {blobstore_options : BlobstoreOptions}
    (ht : blobstore_options.throttle_options.has_throttle = true)
    (hch : blobstore_options.chaos_options.has_chaos = true) (s : Store) :
    wrap_pure true blobstore_options false s =
      .chaosBlobstore blobstore_options.chaos_options
        (.throttledBlob blobstore_options.throttle_options
          (.readOnlyBlobstore s)) := by
  simp [wrap_pure, ht, hch]

/-- An environment in which every external constructor succeeds and the sync
queue opens with handle 7. -/
def demoEnv : Env where
  fileblob_create := fun _ => .ok ()
  sqlblob_with_sqlite_path := fun _ _ => .ok ()
  manifold_new := fun _ _ => .ok ()
  manifold_new_with_ttl := fun _ _ _ => .ok ()
  sqlblob_shardmap := fun _ _ _ => .ok ()
  myrouter_ready := fun _ => .ok ()
  open_blobstore_sync_queue := fun _ => .ok 7

/-- An environment in which opening the sync-queue database fails. -/
def failQueueEnv : Env where
  fileblob_create := fun _ => .ok ()
  sqlblob_with_sqlite_path := fun _ _ => .ok ()
  manifold_new := fun _ _ => .ok ()
  manifold_new_with_ttl := fun _ _ _ => .ok ()
  sqlblob_shardmap := fun _ _ _ => .ok ()
  myrouter_ready := fun _ => .ok ()
  open_blobstore_sync_queue := fun _ => .error "sync queue unavailable"

/-- Options with both chaos and throttling configured. -/
def demoOpts : BlobstoreOptions where
  chaos_options := ChaosOptions.new (some 10) none
  throttle_options := ThrottleOptions.new (some 100) (some 200)
  manifold_api_key := none

/-- Options with neither chaos nor throttling configured. -/
def plainOpts : BlobstoreOptions where
  chaos_options := ChaosOptions.new none none
  throttle_options := ThrottleOptions.new none none
  manifold_api_key := none

/-- Modelled from the spec: the multiplexed blobstore write path itself
(multiplexedblob crate) is not among the sources under verification — only
its factory is — so the quorum rule of spec §4.2.1 is modelled here. A
component put outcome is success or failure. -/
inductive PutOutcome where
  | success
  | failure
deriving DecidableEq, Repr

def count_successes : List PutOutcome → Nat
  | [] => 0
  | .success :: rest => count_successes rest + 1
  | .failure :: rest => count_successes rest

/-- Modelled from the spec: the write quorum is a simple majority of the `n`
components — 1 of 1, 2 of 2, 2 of 3 — i.e. ⌊n/2⌋ + 1. -/
def write_quorum (n : Nat) : Nat := n / 2 + 1

/-- The formula the claim states verbatim: ⌈n/2⌉ + 1. -/
def claimed_write_quorum (n : Nat) : Nat := (n + 1) / 2 + 1

inductive PutResult where
  | ok_result
  | error_result
deriving DecidableEq, Repr

/-- Modelled from the spec: the outer result of a multiplexed put, given the
component outcomes and whether the sync-queue append for stragglers
succeeded. Success requires a write quorum of component successes; a failed
queue append in the presence of stragglers downgrades the result to an
error (spec §4.2.1 steps 4-7). -/
def multiplex_put (outcomes : List PutOutcome) (queue_append_ok : Bool) : PutResult :=
  if write_quorum outcomes.length ≤ count_successes outcomes then
    if count_successes outcomes < outcomes.length && !queue_append_ok then
      .error_result
    else
      .ok_result
  else
    .error_result

/-- A demo Multiplexed configuration with two file components. -/
def demoMuxConfig : BlobConfig :=
  .Multiplexed 1 none 100 (.cons 1 (.Files "a") (.cons 2 (.Files "b") .nil))
    (.LocalDB "meta")

/-- The store the factory produces for `demoMuxConfig` under `demoEnv`,
global read-only, and `demoOpts`. -/
def demoMuxStore : Store :=
  .throttledBlob (ThrottleOptions.new (some 100) (some 200))
    (.readOnlyBlobstore
      (.multiplexedBlobstore 1
        (.cons 1
          (.chaosBlobstore (ChaosOptions.new (some 10) none)
            (.throttledBlob (ThrottleOptions.new (some 100) (some 200))
              (.readOnlyBlobstore (.fileblob "a/blobs"))))
          (.cons 2
            (.throttledBlob (ThrottleOptions.new (some 100) (some 200))
              (.readOnlyBlobstore (.fileblob "b/blobs")))
            .nil))
        7 none 100))

/-- A demo Scrub configuration with ReportOnly action. -/
def scrubReportConfig : BlobConfig :=
  .Scrub 3 none 50 (.cons 1 (.Files "a") .nil) .ReportOnly (.LocalDB "meta")

/-- A demo Scrub configuration with Repair action. -/
def scrubRepairConfig : BlobConfig :=
  .Scrub 3 none 50 (.cons 1 (.Files "a") .nil) .Repair (.LocalDB "meta")

/-- The store produced for `scrubReportConfig` under global read-only and
plain options: the component is read-only wrapped. -/
def scrubReportStore : Store :=
  .readOnlyBlobstore
    (.scrubBlobstore 3 (.cons 1 (.readOnlyBlobstore (.fileblob "a/blobs")) .nil)
      7 none 50 (.logging false) .ReportOnly)

/-- The store produced for `scrubRepairConfig` under global read-only and
plain options: the component is not read-only wrapped. -/
def scrubRepairStore : Store :=
  .readOnlyBlobstore
    (.scrubBlobstore 3 (.cons 1 (.fileblob "a/blobs") .nil)
      7 none 50 (.logging false) .Repair)

/-- C1 counterexample: the claim asserts both that the write quorum is
⌈n/2⌉ + 1 and that it is 1 for n = 1; but with one component a put resolves
as success after a single acknowledgement, while ⌈1/2⌉ + 1 = 2 — the claimed
formula and the claimed quorum values contradict each other at n = 1. -/
theorem C1_counterexample :
    multiplex_put [PutOutcome.success] true = PutResult.ok_result ∧
    count_successes [PutOutcome.success] < claimed_write_quorum 1 := by
  decide

/-- C1 (amended): the write quorum is the simple majority ⌊n/2⌋ + 1 — equal
to 1 for n = 1, 2 for n = 2, and 2 for n = 3 — and a multiplexed put (with a
healthy sync queue) resolves as success exactly when at least `write_quorum`
of the component outcomes are successes. -/
theorem C1_theorem :
    write_quorum 1 = 1 ∧ write_quorum 2 = 2 ∧ write_quorum 3 = 2 ∧
    ∀ outcomes : List PutOutcome,
      (write_quorum outcomes.length ≤ count_successes outcomes →
        multiplex_put outcomes true = .ok_result) ∧
      (multiplex_put outcomes true = .ok_result →
        write_quorum outcomes.length ≤ count_successes outcomes) := by
  refine ⟨rfl, rfl, rfl, fun outcomes => ⟨fun h => ?_, fun h => ?_⟩⟩
  · simp [multiplex_put, h]
  · by_contra hq
    simp [multiplex_put, hq] at h

/-- C1 witness: with three components and two successes the put resolves as
success (quorum 2 of 3). -/
theorem C1_witness :
    multiplex_put [PutOutcome.success, PutOutcome.success, PutOutcome.failure]
      true = PutResult.ok_result :=
  (C1_theorem.2.2.2
    [PutOutcome.success, PutOutcome.success, PutOutcome.failure]).1 (by decide)

/-- C2 counterexample: for a leaf Files config with global read-only,
throttle, and chaos all set, the factory returns the chaos wrapper
outermost and the read-only wrapper innermost — not read-only outermost as
the claim states. -/
theorem C2_counterexample :
    make_blobstore demoEnv true demoOpts (.Files "repo") =
      .ok (.chaosBlobstore (ChaosOptions.new (some 10) none)
        (.throttledBlob (ThrottleOptions.new (some 100) (some 200))
          (.readOnlyBlobstore (.fileblob "repo/blobs")))) ∧
    is_read_only_top
      (.chaosBlobstore (ChaosOptions.new (some 10) none)
        (.throttledBlob (ThrottleOptions.new (some 100) (some 200))
          (.readOnlyBlobstore (.fileblob "repo/blobs")))) = false ∧
    is_chaos_top
      (.chaosBlobstore (ChaosOptions.new (some 10) none)
        (.throttledBlob (ThrottleOptions.new (some 100) (some 200))
          (.readOnlyBlobstore (.fileblob "repo/blobs")))) = true :=
  ⟨rfl, rfl, rfl⟩

/-- C2 (amended): for every leaf (non-multiplex) config built with global
read-only set, throttle options set, and chaos options set, the factory
returns the core wrapped in the fixed outer-to-inner order
chaos → throttle → read_only → core: chaos is the outermost decorator and
read-only the innermost. -/
theorem C2_theorem (env : Env) (blobstore_options : BlobstoreOptions)
    (cfg : BlobConfig) (store : Store)
    (hleaf : leaf_config cfg = true)
    (ht : blobstore_options.throttle_options.has_throttle = true)
    (hch : blobstore_options.chaos_options.has_chaos = true)
    (h : make_blobstore env true blobstore_options cfg = .ok store) :
    ∃ core, store = .chaosBlobstore blobstore_options.chaos_options
        (.throttledBlob blobstore_options.throttle_options
          (.readOnlyBlobstore core)) ∧
      is_mux_node core = false := by
  cases cfg with
  | Disabled =>
      simp only [make_blobstore] at h
      obtain ⟨s0, hX, rfl⟩ := wrap_store_ok_elim h
      obtain rfl : Store.disabledBlob "Disabled by configuration" = s0 := by
        simpa using hX
      exact ⟨_, wrap_pure_full ht hch _, by simp [is_mux_node]⟩
  | Files path =>
      simp only [make_blobstore] at h
      obtain ⟨s0, hX, rfl⟩ := wrap_store_ok_elim h
      obtain ⟨u, hu, rfl⟩ := map_ok_elim hX
      exact ⟨_, wrap_pure_full ht hch _, by simp [is_mux_node]⟩
  | Sqlite path =>
      simp only [make_blobstore] at h
      obtain ⟨s0, hX, rfl⟩ := wrap_store_ok_elim h
      obtain ⟨u, hu, rfl⟩ := map_ok_elim hX
      exact ⟨_, wrap_pure_full ht hch _, by simp [is_mux_node]⟩
  | Manifold bucket pfx =>
      simp only [make_blobstore] at h
      obtain ⟨s0, hX, rfl⟩ := wrap_store_ok_elim h
      obtain ⟨u, hu, rfl⟩ := map_ok_elim hX
      exact ⟨_, wrap_pure_full ht hch _, by simp [is_mux_node]⟩
  | Mysql shard_map shard_num =>
      simp only [make_blobstore] at h
      obtain ⟨s0, hX, rfl⟩ := wrap_store_ok_elim h
      obtain ⟨u, hu, rfl⟩ := map_ok_elim hX
      exact ⟨_, wrap_pure_full ht hch _, by simp [is_mux_node]⟩
  | ManifoldWithTtl bucket pfx ttl =>
      simp only [make_blobstore] at h
      obtain ⟨s0, hX, rfl⟩ := wrap_store_ok_elim h
      obtain ⟨u, hu, rfl⟩ := map_ok_elim hX
      exact ⟨_, wrap_pure_full ht hch _, by simp [is_mux_node]⟩
  | Multiplexed multiplex_id scuba_table scuba_sample_rate blobstores queue_db =>
      simp [leaf_config] at hleaf
  | Scrub multiplex_id scuba_table scuba_sample_rate blobstores scrub_action queue_db =>
      simp [leaf_config] at hleaf

/-- C2 witness: the amended decorator order at the concrete Files leaf. -/
theorem C2_witness :
    ∃ core,
      (Store.chaosBlobstore (ChaosOptions.new (some 10) none)
        (.throttledBlob (ThrottleOptions.new (some 100) (some 200))
          (.readOnlyBlobstore (.fileblob "repo/blobs")))) =
        .chaosBlobstore demoOpts.chaos_options
          (.throttledBlob demoOpts.throttle_options (.readOnlyBlobstore core)) ∧
      is_mux_node core = false :=
  C2_theorem demoEnv demoOpts (.Files "repo")
    (.chaosBlobstore (ChaosOptions.new (some 10) none)
      (.throttledBlob (ThrottleOptions.new (some 100) (some 200))
        (.readOnlyBlobstore (.fileblob "repo/blobs"))))
    rfl rfl rfl rfl

/-- C3: with chaos options set, the factory wraps only leaf (childless)
nodes in the chaos decorator — never a Multiplexed or Scrub node — and the
whole produced tree contains at most one chaos wrapper, so no request can
pass through two of them; moreover of a multiplex's components exactly the
first one is built with the chaos options intact and every later component
with chaos cleared. -/
theorem C3_theorem :
    (∀ env readonly_storage blobstore_options cfg store,
      make_blobstore env readonly_storage blobstore_options cfg = .ok store →
      chaos_leaf_only store = true ∧ chaosCount store ≤ 1) ∧
    (∀ env component_readonly blobstore_options blobstore_id config rest comps,
      blobstore_options.chaos_options.has_chaos = true →
      make_components env component_readonly blobstore_options false
        (.cons blobstore_id config rest) = .ok comps →
      ∃ s others, comps = .cons blobstore_id s others ∧
        make_blobstore env component_readonly blobstore_options config = .ok s ∧
        chaosCountMembers others = 0) := by
  constructor
  · intro env readonly_storage blobstore_options cfg store h
    exact ⟨make_blobstore_chaos_leaf env readonly_storage blobstore_options
        cfg store h,
      make_blobstore_chaos_le_one env readonly_storage blobstore_options
        cfg store h⟩
  · intro env component_readonly blobstore_options blobstore_id config rest
      comps hch h
    obtain ⟨s, others, hstore, hrest, rfl⟩ := make_components_cons_elim h
    rw [chaos_step_fst_fresh hch] at hstore hrest
    exact ⟨s, others, rfl, hstore,
      make_components_chaos_applied_zero env component_readonly
        blobstore_options rest others hrest⟩

/-- C3 witness: the demo multiplex store has its single chaos wrapper on a
leaf component and at most one chaos wrapper overall. -/
theorem C3_witness :
    chaos_leaf_only demoMuxStore = true ∧ chaosCount demoMuxStore ≤ 1 :=
  C3_theorem.1 demoEnv true demoOpts demoMuxConfig demoMuxStore rfl

/-- C4 counterexample: a Scrub node with action ReportOnly under global
read-only builds its component with the read-only wrapper still present, so
scrub mode alone does not disable read-only on components. -/
theorem C4_counterexample :
    make_blobstore demoEnv true plainOpts scrubReportConfig =
      .ok scrubReportStore ∧
    roCountMembers (top_mux_components scrubReportStore) = 1 :=
  ⟨rfl, rfl⟩

/-- C4 (amended): only when the Scrub action is Repair are the component
stores built with read-only disabled (no read-only wrapper anywhere below
the components); with action ReportOnly under global read-only every
component is still read-only wrapped. -/
theorem C4_theorem (env : Env) (readonly_storage : Bool)
    (blobstore_options : BlobstoreOptions) (multiplex_id : Nat)
    (scuba_table : Option String) (scuba_sample_rate : Nat)
    (members : BlobMembers) (queue_db : MetadataDBConfig) (store : Store) :
    (make_blobstore env readonly_storage blobstore_options
        (.Scrub multiplex_id scuba_table scuba_sample_rate members .Repair queue_db) =
          .ok store →
      roCountMembers (top_mux_components store) = 0) ∧
    (make_blobstore env true blobstore_options
        (.Scrub multiplex_id scuba_table scuba_sample_rate members .ReportOnly queue_db) =
          .ok store →
      ro_wrapped_members (top_mux_components store) = true) := by
  constructor
  · intro h
    simp only [make_blobstore] at h
    obtain ⟨s0, hX, rfl⟩ := wrap_store_ok_elim h
    obtain ⟨q, comps, hq, hcomps, rfl⟩ := multiplexed_assemble_some_ok_elim hX
    have hcr : component_readonly_for
        (some (ScrubHandler.logging false, ScrubAction.Repair)) readonly_storage =
          false := rfl
    rw [hcr] at hcomps
    have hmem := make_components_ro_off env blobstore_options false members
      comps hcomps
    rw [top_mux_components_wrap_pure]
    simpa [top_mux_components] using hmem
  · intro h
    simp only [make_blobstore] at h
    obtain ⟨s0, hX, rfl⟩ := wrap_store_ok_elim h
    obtain ⟨q, comps, hq, hcomps, rfl⟩ := multiplexed_assemble_some_ok_elim hX
    have hcr : component_readonly_for
        (some (ScrubHandler.logging false, ScrubAction.ReportOnly)) true =
          true := rfl
    rw [hcr] at hcomps
    have hmem := make_components_ro_wrapped env blobstore_options false members
      comps hcomps
    rw [top_mux_components_wrap_pure]
    simpa [top_mux_components] using hmem

/-- C4 witness: the Repair-scrub demo store has no read-only wrapper among
its components although global read-only is set. -/
theorem C4_witness :
    roCountMembers (top_mux_components scrubRepairStore) = 0 :=
  (C4_theorem demoEnv true plainOpts 3 none 50 (.cons 1 (.Files "a") .nil)
    (.LocalDB "meta") scrubRepairStore).1 rfl

/-- C5 counterexample: with global read-only set, a Scrub node with action
Repair produces a component store (BlobstoreId 1) that carries no read-only
wrapper at all, refuting the claim that every produced store is read-only
wrapped. -/
theorem C5_counterexample :
    make_blobstore demoEnv true plainOpts scrubRepairConfig =
      .ok scrubRepairStore ∧
    store_members_ids (top_mux_components scrubRepairStore) = [1] ∧
    roCountMembers (top_mux_components scrubRepairStore) = 0 :=
  ⟨rfl, rfl, rfl⟩

/-- C5 (amended): if the global read_only option is set, every store the
factory produces — the node itself and, recursively, every component of a
Multiplexed or Scrub node — is wrapped in the read-only wrapper, except the
components (and their descendants) of a Scrub node with action Repair,
which are built with read-only disabled. -/
theorem C5_theorem (env : Env) (blobstore_options : BlobstoreOptions)
    (cfg : BlobConfig) (store : Store)
    (h : make_blobstore env true blobstore_options cfg = .ok store) :
    ro_wrapped_everywhere store = true :=
  make_blobstore_ro_wrapped env blobstore_options cfg store h

/-- C5 witness: the ReportOnly demo scrub store is read-only wrapped at the
root and at its component. -/
theorem C5_witness : ro_wrapped_everywhere scrubReportStore = true :=
  C5_theorem demoEnv plainOpts scrubReportConfig scrubReportStore rfl

/-- C6: on a put that reached write quorum but has straggler components, a
failed sync-queue append downgrades the outer result from success to Error;
with a healthy queue the same outcomes yield success. -/
theorem C6_theorem (outcomes : List PutOutcome)
    (hq : write_quorum outcomes.length ≤ count_successes outcomes)
    (hs : count_successes outcomes < outcomes.length) :
    multiplex_put outcomes false = .error_result ∧
    multiplex_put outcomes true = .ok_result := by
  constructor
  · simp [multiplex_put, hq, hs]
  · simp [multiplex_put, hq]

/-- C6 witness: two successes of three reach quorum with one straggler; a
failed queue append turns the put into an error, a successful one leaves it
a success. -/
theorem C6_witness :
    multiplex_put [PutOutcome.success, PutOutcome.success, PutOutcome.failure]
      false = PutResult.error_result ∧
    multiplex_put [PutOutcome.success, PutOutcome.success, PutOutcome.failure]
      true = PutResult.ok_result :=
  C6_theorem [PutOutcome.success, PutOutcome.success, PutOutcome.failure]
    (by decide) (by decide)

/-- C7: for every Multiplexed or Scrub configuration the factory opens the
metadata database named by queue_db (through make_sql_factory and the
SqlBlobstoreSyncQueue constructor, composed in open_sync_queue) and passes
the resulting sync-queue handle into the constructed multiplex store; if
opening the queue database fails, construction of the whole blobstore fails
with that error. -/
theorem C7_theorem (env : Env) (readonly_storage : Bool)
    (blobstore_options : BlobstoreOptions) (multiplex_id : Nat)
    (scuba_table : Option String) (scuba_sample_rate : Nat)
    (members : BlobMembers) (queue_db : MetadataDBConfig) :
    (∀ e, open_sync_queue env queue_db readonly_storage = .error e →
      make_blobstore env readonly_storage blobstore_options
        (.Multiplexed multiplex_id scuba_table scuba_sample_rate members queue_db) =
        .error e) ∧
    (∀ action e, open_sync_queue env queue_db readonly_storage = .error e →
      make_blobstore env readonly_storage blobstore_options
        (.Scrub multiplex_id scuba_table scuba_sample_rate members action queue_db) =
        .error e) ∧
    (∀ store, make_blobstore env readonly_storage blobstore_options
        (.Multiplexed multiplex_id scuba_table scuba_sample_rate members queue_db) =
        .ok store →
      ∃ q, open_sync_queue env queue_db readonly_storage = .ok q ∧
        mux_queue store = some q) ∧
    (∀ action store, make_blobstore env readonly_storage blobstore_options
        (.Scrub multiplex_id scuba_table scuba_sample_rate members action queue_db) =
        .ok store →
      ∃ q, open_sync_queue env queue_db readonly_storage = .ok q ∧
        mux_queue store = some q) := by
  refine ⟨fun e he => ?_, fun action e he => ?_, fun store h => ?_,
    fun action store h => ?_⟩
  · simp only [make_blobstore]
    rw [wrap_store_eq_map, he, multiplexed_assemble_error]
    rfl
  · simp only [make_blobstore]
    rw [wrap_store_eq_map, he, multiplexed_assemble_error]
    rfl
  · simp only [make_blobstore] at h
    obtain ⟨s0, hX, rfl⟩ := wrap_store_ok_elim h
    obtain ⟨q, comps, hq, hcomps, rfl⟩ := multiplexed_assemble_none_ok_elim hX
    refine ⟨q, hq, ?_⟩
    rw [mux_queue_wrap_pure]
    simp [mux_queue]
  · simp only [make_blobstore] at h
    obtain ⟨s0, hX, rfl⟩ := wrap_store_ok_elim h
    obtain ⟨q, comps, hq, hcomps, rfl⟩ := multiplexed_assemble_some_ok_elim hX
    refine ⟨q, hq, ?_⟩
    rw [mux_queue_wrap_pure]
    simp [mux_queue]

/-- C7 witness: with an environment whose sync-queue opening fails, building
a Multiplexed blobstore fails with that error. -/
theorem C7_witness :
    make_blobstore failQueueEnv false plainOpts
        (.Multiplexed 1 none 10 .nil (.LocalDB "meta")) =
      .error "sync queue unavailable" :=
  (C7_theorem failQueueEnv false plainOpts 1 none 10 .nil (.LocalDB "meta")).1
    "sync queue unavailable" rfl

/-- C8: a Multiplexed config node produces (under the decorator epilogue) a
MultiplexedBlobstore over the listed (BlobstoreId, component) pairs — built
by recursive make_blobstore calls via make_components, in list order —
carrying the configured multiplex id, scuba table and sample rate; a Scrub
node produces a ScrubBlobstore over the same pairs additionally carrying a
LoggingScrubHandler and the configured scrub action. -/
theorem C8_theorem (env : Env) (readonly_storage : Bool)
    (blobstore_options : BlobstoreOptions) (multiplex_id : Nat)
    (scuba_table : Option String) (scuba_sample_rate : Nat)
    (members : BlobMembers) (queue_db : MetadataDBConfig) (store : Store) :
    (make_blobstore env readonly_storage blobstore_options
        (.Multiplexed multiplex_id scuba_table scuba_sample_rate members queue_db) =
        .ok store →
      ∃ q comps, open_sync_queue env queue_db readonly_storage = .ok q ∧
        make_components env readonly_storage blobstore_options false members =
          .ok comps ∧
        store_members_ids comps = members_ids members ∧
        strip_decorators store =
          .multiplexedBlobstore multiplex_id comps q scuba_table scuba_sample_rate) ∧
    (∀ action, make_blobstore env readonly_storage blobstore_options
        (.Scrub multiplex_id scuba_table scuba_sample_rate members action queue_db) =
        .ok store →
      ∃ q comps, open_sync_queue env queue_db readonly_storage = .ok q ∧
        make_components env
          (component_readonly_for (some (.logging false, action)) readonly_storage)
          blobstore_options false members = .ok comps ∧
        store_members_ids comps = members_ids members ∧
        strip_decorators store =
          .scrubBlobstore multiplex_id comps q scuba_table scuba_sample_rate
            (.logging false) action) := by
  constructor
  · intro h
    simp only [make_blobstore] at h
    obtain ⟨s0, hX, rfl⟩ := wrap_store_ok_elim h
    obtain ⟨q, comps, hq, hcomps, rfl⟩ := multiplexed_assemble_none_ok_elim hX
    rw [component_readonly_for_none] at hcomps
    refine ⟨q, comps, hq, hcomps,
      make_components_ids env readonly_storage blobstore_options false members
        comps hcomps, ?_⟩
    rw [strip_decorators_wrap_pure]
    simp [strip_decorators]
  · intro action h
    simp only [make_blobstore] at h
    obtain ⟨s0, hX, rfl⟩ := wrap_store_ok_elim h
    obtain ⟨q, comps, hq, hcomps, rfl⟩ := multiplexed_assemble_some_ok_elim hX
    refine ⟨q, comps, hq, hcomps,
      make_components_ids env _ blobstore_options false members comps hcomps, ?_⟩
    rw [strip_decorators_wrap_pure]
    simp [strip_decorators]

/-- C8 witness: the demo multiplex store strips to a MultiplexedBlobstore
over components with ids in list order. -/
theorem C8_witness :
    ∃ q comps, open_sync_queue demoEnv (.LocalDB "meta") true = .ok q ∧
      make_components demoEnv true demoOpts false
        (.cons 1 (.Files "a") (.cons 2 (.Files "b") .nil)) = .ok comps ∧
      store_members_ids comps =
        members_ids (.cons 1 (.Files "a") (.cons 2 (.Files "b") .nil)) ∧
      strip_decorators demoMuxStore =
        .multiplexedBlobstore 1 comps q none 100 :=
  (C8_theorem demoEnv true demoOpts 1 none 100
    (.cons 1 (.Files "a") (.cons 2 (.Files "b") .nil)) (.LocalDB "meta")
    demoMuxStore).1 rfl

/-- C9: for every Manifold configuration, with or without TTL, the factory
wraps the remote store in a PrefixBlobstore whose prefix is the string
"flat/" concatenated with the configured prefix. -/
theorem C9_theorem (env : Env) (readonly_storage : Bool)
    (blobstore_options : BlobstoreOptions) (bucket : String) (pfx : String)
    (ttl : Nat) (store : Store) :
    (make_blobstore env readonly_storage blobstore_options
        (.Manifold bucket pfx) = .ok store →
      strip_decorators store =
        .prefixBlobstore ("flat/" ++ pfx)
          (.manifoldBlob bucket blobstore_options.manifold_api_key)) ∧
    (make_blobstore env readonly_storage blobstore_options
        (.ManifoldWithTtl bucket pfx ttl) = .ok store →
      strip_decorators store =
        .prefixBlobstore ("flat/" ++ pfx)
          (.manifoldBlobTtl bucket ttl blobstore_options.manifold_api_key)) := by
  constructor
  · intro h
    simp only [make_blobstore] at h
    obtain ⟨s0, hX, rfl⟩ := wrap_store_ok_elim h
    obtain ⟨u, hu, rfl⟩ := map_ok_elim hX
    rw [strip_decorators_wrap_pure]
    simp [strip_decorators]
  · intro h
    simp only [make_blobstore] at h
    obtain ⟨s0, hX, rfl⟩ := wrap_store_ok_elim h
    obtain ⟨u, hu, rfl⟩ := map_ok_elim hX
    rw [strip_decorators_wrap_pure]
    simp [strip_decorators]

/-- C9 witness: the concrete Manifold store is namespaced under
"flat/" ++ "repo". -/
theorem C9_witness :
    strip_decorators (.prefixBlobstore "flat/repo" (.manifoldBlob "bucket" none)) =
      .prefixBlobstore ("flat/" ++ "repo") (.manifoldBlob "bucket" none) :=
  (C9_theorem demoEnv false plainOpts "bucket" "repo" 0
    (.prefixBlobstore "flat/repo" (.manifoldBlob "bucket" none))).1 rfl

/-- C10: when throttle options are set, every recursive invocation of
make_blobstore adds its own throttle wrapper — the multiplex node and every
component each carry one — and for a Multiplexed node with at least one
component a single outer operation passes through at least two throttle
wrappers on the path into the first component. -/
theorem C10_theorem :
    (∀ env readonly_storage blobstore_options cfg store,
      blobstore_options.throttle_options.has_throttle = true →
      make_blobstore env readonly_storage blobstore_options cfg = .ok store →
      throttled_everywhere store = true) ∧
    (∀ env readonly_storage blobstore_options multiplex_id scuba_table
        scuba_sample_rate blobstore_id config rest queue_db store,
      blobstore_options.throttle_options.has_throttle = true →
      make_blobstore env readonly_storage blobstore_options
        (.Multiplexed multiplex_id scuba_table scuba_sample_rate
          (.cons blobstore_id config rest) queue_db) = .ok store →
      2 ≤ throttle_path_count store) := by
  constructor
  · intro env readonly_storage blobstore_options cfg store ht h
    exact make_blobstore_throttled env readonly_storage blobstore_options ht
      cfg store h
  · intro env readonly_storage blobstore_options multiplex_id scuba_table
      scuba_sample_rate blobstore_id config rest queue_db store ht h
    simp only [make_blobstore] at h
    obtain ⟨s0, hX, rfl⟩ := wrap_store_ok_elim h
    obtain ⟨q, comps, hq, hcomps, rfl⟩ := multiplexed_assemble_none_ok_elim hX
    obtain ⟨s, others, hstore, hrest, rfl⟩ := make_components_cons_elim hcomps
    have ht1 : (chaos_step blobstore_options false).1.throttle_options.has_throttle
        = true := by
      rw [chaos_step_throttle]; exact ht
    have hth := make_blobstore_throttled env _ _ ht1 config s hstore
    have hpath := throttled_path_ge_one s hth
    rw [throttle_path_count_wrap_pure]
    simp only [throttle_path_count, ht, if_pos]
    omega

/-- C10 witness: in the demo multiplex, the path from the root into the
first component passes through two throttle wrappers. -/
theorem C10_witness : 2 ≤ throttle_path_count demoMuxStore :=
  C10_theorem.2 demoEnv true demoOpts 1 none 100 1 (.Files "a")
    (.cons 2 (.Files "b") .nil) (.LocalDB "meta") demoMuxStore rfl rfl

end BlobstoreFactory
